import Mathlib

/-!
Shallow embedding of `pyGPIO/gpio/gpioout.py`: a gpiozero-style LED wrapper
built from a cancellable background thread (`GPIOThread`) and an output
device (`LED`).

Modelling choices:
* The process-wide registry `_THREADS` is a `Finset Nat` of thread ids.
* A `GPIOThread` carries its id, the `stopping` event flag, whether
  `start()` has been called, and whether a successful `join` has confirmed
  its termination.
* Whether the underlying OS thread is still alive after `Thread.join`
  returned is an oracle boolean `aliveAfterWait` supplied to `join`/`stop`;
  the Python standard library guarantees that `join(None)` returns only
  once the thread is dead, so for a `none` timeout the oracle is ignored
  and the thread is dead.
* Calls into the external `gpio` driver and thread management are recorded
  as an event trace; exceptions are an `Option String` carried alongside
  the mutated state (Python exceptions propagate but keep side effects
  performed so far).
* The toggle loop `_blink_device` is a function of an oracle
  `sig : Nat -> Bool` giving the result of the k-th `stopping.wait` call,
  with a fuel argument standing for the unbounded iteration of
  `repeat(0)`.
-/

namespace PyGPIO

/-- Observable events: calls into the external gpio driver, plus thread
start/stop bookkeeping performed by the device layer. -/
inductive Ev where
  | init
  | setcfg (p : Nat) (mode : Nat)
  | output (p : Nat) (v : Nat)
  | stopThread (tid : Nat)
  | startThread (tid : Nat)
  deriving DecidableEq, Repr

/-- Whether an event is a pin write (`gpio.output`). -/
def Ev.isOutput : Ev → Bool
  | .output _ _ => true
  | _ => false

/-- The external constant `port.GPIO4` from the pyGPIO driver library;
its concrete numeric value is immaterial, only its identity matters. -/
def GPIO4 : Nat := 4

/-- State of a `GPIOThread`: its identity, the `stopping` event, whether
`start()` was called, and whether a join has confirmed termination. -/
structure GPIOThread where
  tid : Nat
  stopping : Bool
  started : Bool
  confirmedDead : Bool
  deriving DecidableEq, Repr

/-- `GPIOThread.__init__`: the `stopping` event starts cleared and the
thread is idle. -/
def newThread (tid : Nat) : GPIOThread :=
  { tid := tid, stopping := false, started := false, confirmedDead := false }

/-- Outcome of `GPIOThread.join`: normal return, the `ZombieThread`
exception with its message, or the `assert timeout is not None`
statement firing. -/
inductive JoinOutcome where
  | ok
  | zombie (msg : String)
  | assertFail
  deriving DecidableEq, Repr

/-- The message of the `ZombieThread` exception raised in
`GPIOThread.join`. -/
def zombieMessage (timeout : Nat) : String :=
  "Thread failed to die within " ++ toString timeout ++ " seconds"

/-- `GPIOThread.start`: clears `stopping`, adds the thread to `_THREADS`,
and starts the underlying OS thread. -/
def threadStart (t : GPIOThread) (reg : Finset Nat) : GPIOThread × Finset Nat :=
  ({ t with stopping := false, started := true }, insert t.tid reg)

/-- `GPIOThread.join`: calls `Thread.join(timeout)`, then checks
`is_alive()`.  The standard library guarantees `join(None)` returns only
after the thread has died, so with a `none` timeout the thread is dead
regardless of the oracle.  If still alive: the code asserts the timeout
was not `None` and raises `ZombieThread`; otherwise the thread is
discarded from `_THREADS`. -/
def threadJoin (t : GPIOThread) (timeout : Option Nat) (aliveAfterWait : Bool)
    (reg : Finset Nat) : JoinOutcome × GPIOThread × Finset Nat :=
  let alive := match timeout with
    | none => false
    | some _ => aliveAfterWait
  if alive then
    match timeout with
    | none => (.assertFail, t, reg)
    | some tmo => (.zombie (zombieMessage tmo), t, reg)
  else
    (.ok, { t with confirmedDead := true }, reg.erase t.tid)

/-- `GPIOThread.stop(timeout)`: sets the `stopping` event, then joins with
the given (concrete) timeout.  The Python default timeout is 10. -/
def threadStop (t : GPIOThread) (timeout : Nat) (aliveAfterWait : Bool)
    (reg : Finset Nat) : JoinOutcome × GPIOThread × Finset Nat :=
  threadJoin { t with stopping := true } (some timeout) aliveAfterWait reg

/-- State of an `LED` device: the current blink-thread reference, the port
it drives, and the active/inactive logical levels set in `__init__`. -/
structure LED where
  blinkThread : Option GPIOThread
  port : Nat
  activeState : Bool
  inactiveState : Bool
  deriving DecidableEq, Repr

/-- `LED.__init__(_pin)`: calls `gpio.init()`, hard-codes the port to
`GPIO4`, configures it as an output via `gpio.setcfg(port, 1)`, and sets
the active/inactive mapping.  The `_pin` argument is unused by the code
and no pin write is issued. -/
def LED.construct (_pin : Option Nat) : LED × List Ev :=
  ({ blinkThread := none, port := GPIO4, activeState := true, inactiveState := false },
   [Ev.init, Ev.setcfg GPIO4 1])

/-- `LED._write(value)`: maps logical true/false to physical 1/0 on the
device's port. -/
def LED.writeEv (led : LED) (value : Bool) : Ev :=
  Ev.output led.port (if value then 1 else 0)

/-- Result of a device operation: the exception that propagated (if any),
the device and registry state after the call, and the event trace the
calling thread produced. -/
structure OpResult where
  exc : Option String
  led : LED
  reg : Finset Nat
  tr : List Ev
  deriving DecidableEq

/-- `LED._stop_blink`: if a blink-thread reference exists, call its
`stop()` (default timeout 10).  Only when `stop` returns normally does
execution reach the `self._blink_thread = None` assignment; a raised
`ZombieThread` propagates first, leaving the reference set. -/
def LED.stopBlink (led : LED) (reg : Finset Nat) (aliveAfterWait : Bool) : OpResult :=
  match led.blinkThread with
  | none =>
      { exc := none, led := { led with blinkThread := none }, reg := reg, tr := [] }
  | some t =>
      match threadStop t 10 aliveAfterWait reg with
      | (.ok, _, reg2) =>
          { exc := none, led := { led with blinkThread := none }, reg := reg2,
            tr := [Ev.stopThread t.tid] }
      | (.zombie msg, t2, reg2) =>
          { exc := some msg, led := { led with blinkThread := some t2 }, reg := reg2,
            tr := [Ev.stopThread t.tid] }
      | (.assertFail, t2, reg2) =>
          { exc := some "AssertionError", led := { led with blinkThread := some t2 },
            reg := reg2, tr := [Ev.stopThread t.tid] }

/-- `LED.on()`: `_stop_blink` then `_write(True)`. -/
def LED.on (led : LED) (reg : Finset Nat) (aliveAfterWait : Bool) : OpResult :=
  let r := led.stopBlink reg aliveAfterWait
  match r.exc with
  | some _ => r
  | none => { r with tr := r.tr ++ [r.led.writeEv true] }

/-- `LED.off()`: `_stop_blink` then `_write(False)`. -/
def LED.off (led : LED) (reg : Finset Nat) (aliveAfterWait : Bool) : OpResult :=
  let r := led.stopBlink reg aliveAfterWait
  match r.exc with
  | some _ => r
  | none => { r with tr := r.tr ++ [r.led.writeEv false] }

/-- `LED.close()`: `_stop_blink` then `gpio.init()`. -/
def LED.close (led : LED) (reg : Finset Nat) (aliveAfterWait : Bool) : OpResult :=
  let r := led.stopBlink reg aliveAfterWait
  match r.exc with
  | some _ => r
  | none => { r with tr := r.tr ++ [Ev.init] }

/-- `LED.blink(on_time, off_time, n, background)`: `_stop_blink`, then
create and start a new `GPIOThread` (with fresh id `newTid`) and store it
in `_blink_thread`; if `background` is false, `join()` with no timeout
and clear the reference.  `onT`, `offT` and `n` are captured by the
thread's target and do not affect the caller-side control flow. -/
def LED.blink (led : LED) (reg : Finset Nat) (_onT _offT : Nat) (_n : Option Nat)
    (background : Bool) (aliveAfterWait : Bool) (newTid : Nat) : OpResult :=
  let r := led.stopBlink reg aliveAfterWait
  match r.exc with
  | some _ => r
  | none =>
      let t0 := newThread newTid
      let s := threadStart t0 r.reg
      let led1 := { r.led with blinkThread := some s.1 }
      if background then
        { exc := none, led := led1, reg := s.2, tr := r.tr ++ [Ev.startThread newTid] }
      else
        match threadJoin s.1 none true s.2 with
        | (.ok, _, reg2) =>
            { exc := none, led := { led1 with blinkThread := none }, reg := reg2,
              tr := r.tr ++ [Ev.startThread newTid] }
        | (.zombie msg, t2, reg2) =>
            { exc := some msg, led := { led1 with blinkThread := some t2 }, reg := reg2,
              tr := r.tr ++ [Ev.startThread newTid] }
        | (.assertFail, t2, reg2) =>
            { exc := some "AssertionError", led := { led1 with blinkThread := some t2 },
              reg := reg2, tr := r.tr ++ [Ev.startThread newTid] }

/-- Decrement of the remaining iteration budget of `repeat(0, n)`;
`none` (`repeat(0)`) stays unbounded. -/
def decr : Option Nat → Option Nat
  | none => none
  | some m => some (m - 1)

/-- `LED._blink_device(on_time, off_time, n)`: the toggle loop.  `sig k`
is the value returned by the k-th call of `stopping.wait` overall (the
iteration starting at wait index `2*k` uses waits `2*k` and `2*k+1`).
Returns the list of logical values written (`true` = active level) and
whether the loop exited (by exhausting `n` or observing the signal), as
opposed to running out of fuel — fuel is the embedding's stand-in for the
unbounded `repeat(0)` iterator. -/
def blinkRun (sig : Nat → Bool) : Nat → Option Nat → Nat → List Bool × Bool
  | _, some 0, _ => ([], true)
  | _, _, 0 => ([], false)
  | k, n, fuel + 1 =>
      if sig (2 * k) then ([true], true)
      else if sig (2 * k + 1) then ([true, false], true)
      else
        let r := blinkRun sig (k + 1) (decr n) fuel
        (true :: false :: r.1, r.2)

/-- The never-signalled cancellation oracle: `stopping` is never set. -/
def noSig : Nat → Bool := fun _ => false

/-- The write trace of `c` uncancelled cycles: strict alternation
active, inactive, active, inactive, ... starting with an active write. -/
def altTrace : Nat → List Bool
  | 0 => []
  | c + 1 => true :: false :: altTrace c

/-- Pin level after a sequence of logical writes, given the level the pin
held before: the last write wins, no write leaves the pin unchanged. -/
def finalState (init : Bool) (tr : List Bool) : Bool :=
  (tr.getLast?).getD init

/-- Registry invariant for one thread: it is a member of `_THREADS` iff it
has been started and a join has not yet confirmed its termination. -/
def Inv (t : GPIOThread) (reg : Finset Nat) : Prop :=
  t.tid ∈ reg ↔ (t.started = true ∧ t.confirmedDead = false)

/-! Helper lemmas about the toggle loop. -/

/-- With the cancellation signal never set, a bounded loop of `c` cycles
runs to completion and writes the strict alternation `altTrace c`. -/
theorem blinkRun_noSig_finite (c : Nat) :
    ∀ k fuel, c ≤ fuel → blinkRun noSig k (some c) fuel = (altTrace c, true) := by
  induction c with
  | zero =>
      intro k fuel _
      cases fuel <;> rfl
  | succ c ih =>
      intro k fuel h
      cases fuel with
      | zero => omega
      | succ fuel =>
          have hr := ih (k + 1) fuel (by omega)
          simp [blinkRun, noSig, decr, altTrace, hr]

/-- With the cancellation signal never set and no iteration bound, the
loop never exits: every fuel bound is exhausted mid-toggle. -/
theorem blinkRun_noSig_forever (fuel : Nat) :
    ∀ k, blinkRun noSig k none fuel = (altTrace fuel, false) := by
  induction fuel with
  | zero => intro k; rfl
  | succ fuel ih =>
      intro k
      simp [blinkRun, noSig, decr, altTrace, ih]

/-- The alternating trace holds `c` active and `c` inactive writes. -/
theorem altTrace_count (c : Nat) :
    (altTrace c).count true = c ∧ (altTrace c).count false = c := by
  induction c with
  | zero => simp [altTrace]
  | succ c ih => simp [altTrace, List.count_cons, ih.1, ih.2]

/-- A nonempty alternating trace ends with an inactive write. -/
theorem altTrace_getLast (c : Nat) : (altTrace (c + 1)).getLast? = some false := by
  induction c with
  | zero => rfl
  | succ c ih =>
      show (true :: false :: altTrace (c + 1)).getLast? = some false
      rw [List.getLast?_cons_cons]
      show (false :: true :: false :: altTrace c).getLast? = some false
      rw [List.getLast?_cons_cons]
      exact ih

/-- C1: `GPIOThread.stop(timeout)` — when the thread dies within the
timeout, `stop` returns normally with the thread removed from `_THREADS`;
when it is still alive after the wait, `stop` leaves the registry
untouched and raises `ZombieThread` with a message carrying the timeout
value. -/
theorem c1_stop_behaviour (t : GPIOThread) (tmo : Nat) (reg : Finset Nat) :
    threadStop t tmo false reg
      = (.ok, { t with stopping := true, confirmedDead := true }, reg.erase t.tid)
    ∧ t.tid ∉ (threadStop t tmo false reg).2.2
    ∧ threadStop t tmo true reg
      = (.zombie ("Thread failed to die within " ++ toString tmo ++ " seconds"),
         { t with stopping := true }, reg)
    ∧ (threadStop t tmo true reg).2.2 = reg := by
  refine ⟨rfl, ?_, rfl, rfl⟩
  simp [threadStop, threadJoin]

/-- C10: `GPIOThread.join` with timeout `None` always returns normally
(the standard library join blocks until the thread is dead), so the
still-alive branch — and with it the `assert timeout is not None` and the
`ZombieThread` raise — is reachable only with a concrete timeout; the
assertion never fires on any call. -/
theorem c10_join_none_safe (t : GPIOThread) (a : Bool) (reg : Finset Nat)
    (tmo : Option Nat) :
    (threadJoin t none a reg).1 = .ok
    ∧ (threadJoin t tmo a reg).1 ≠ .assertFail := by
  constructor
  · rfl
  · cases tmo with
    | none => simp [threadJoin]
    | some v => cases a <;> simp [threadJoin]

/-- C3: registry membership invariant — a thread is in `_THREADS` iff it
has been started and no join has confirmed its termination.  A fresh
thread satisfies it with respect to an empty registry; `start` (on a
not-yet-confirmed-dead thread, the documented precondition) establishes
it and adds exactly that thread's id; `join` preserves it, a successful
join removing the thread and a timed-out join leaving the registry
unchanged; `stop` preserves it; and both operations leave the membership
of every other thread untouched. -/
theorem c3_registry_invariant (t u : GPIOThread) (reg : Finset Nat) (a : Bool)
    (tmo : Nat) (otmo : Option Nat) :
    Inv (newThread t.tid) ∅
    ∧ (t.confirmedDead = false → Inv (threadStart t reg).1 (threadStart t reg).2)
    ∧ (threadStart t reg).2 = insert t.tid reg
    ∧ (Inv t reg → Inv (threadJoin t otmo a reg).2.1 (threadJoin t otmo a reg).2.2)
    ∧ t.tid ∉ (threadJoin t otmo false reg).2.2
    ∧ (threadJoin t (some tmo) true reg).2.2 = reg
    ∧ (Inv t reg → Inv (threadStop t tmo a reg).2.1 (threadStop t tmo a reg).2.2)
    ∧ (u.tid ≠ t.tid → Inv u reg →
        Inv u (threadStart t reg).2 ∧ Inv u (threadJoin t otmo a reg).2.2) := by
  refine ⟨?_, ?_, rfl, ?_, ?_, rfl, ?_, ?_⟩
  · simp [Inv, newThread]
  · intro hd
    simp [Inv, threadStart, hd]
  · intro hInv
    cases otmo with
    | none => simp [Inv, threadJoin]
    | some v =>
        cases a with
        | false => simp [Inv, threadJoin]
        | true => simpa [Inv, threadJoin] using hInv
  · cases otmo <;> simp [threadJoin]
  · intro hInv
    cases a with
    | false => simp [Inv, threadStop, threadJoin]
    | true => simpa [Inv, threadStop, threadJoin] using hInv
  · intro hne hInv
    constructor
    · simpa [Inv, threadStart, Finset.mem_insert, hne] using hInv
    · cases otmo with
      | none => simpa [Inv, threadJoin, Finset.mem_erase, hne] using hInv
      | some v =>
          cases a with
          | false => simpa [Inv, threadJoin, Finset.mem_erase, hne] using hInv
          | true => simpa [Inv, threadJoin] using hInv

/-- Witness for C3 at a concrete started thread registered in a
singleton registry. -/
theorem c3_registry_invariant_witness :
    Inv (threadStop ⟨7, false, true, false⟩ 10 false {7}).2.1
        (threadStop ⟨7, false, true, false⟩ 10 false {7}).2.2
    ∧ Inv ⟨9, false, true, false⟩ (threadStart ⟨7, false, false, false⟩ {9}).2 :=
  ⟨(c3_registry_invariant ⟨7, false, true, false⟩ ⟨9, false, true, false⟩ {7} false
      10 (some 10)).2.2.2.2.2.2.1 (by simp [Inv]),
   ((c3_registry_invariant ⟨7, false, false, false⟩ ⟨9, false, true, false⟩ {9} false
      10 (some 10)).2.2.2.2.2.2.2 (by decide) (by simp [Inv])).1⟩

/-- C2 counterexample: a device whose blink thread survives the bounded
wait.  `_stop_blink` propagates the `ZombieThread` exception raised by
`stop()` before reaching the `self._blink_thread = None` assignment, so
the reference is NOT cleared — refuting the claim that it is cleared
regardless of outcome. -/
theorem c2_counterexample :
    (LED.stopBlink ⟨some (newThread 7), GPIO4, true, false⟩ {7} true).exc
        = some (zombieMessage 10)
    ∧ (LED.stopBlink ⟨some (newThread 7), GPIO4, true, false⟩ {7} true).led.blinkThread
        ≠ none := by
  constructor
  · rfl
  · intro h
    simp [LED.stopBlink, threadStop, threadJoin, newThread] at h

/-- C2 amended: `_stop_blink` clears the `_blink_thread` reference when
`stop` returns normally (and when no task exists); when `stop` raises the
zombie condition, the exception propagates first, the reference stays
pointing at the (still registered) task, and only its `stopping` flag has
changed. -/
theorem c2_stop_blink_reference (led : LED) (reg : Finset Nat) (a : Bool) :
    ((led.stopBlink reg a).exc = none → (led.stopBlink reg a).led.blinkThread = none)
    ∧ (∀ t, led.blinkThread = some t →
        led.stopBlink reg true
          = { exc := some (zombieMessage 10),
              led := { led with blinkThread := some { t with stopping := true } },
              reg := reg, tr := [Ev.stopThread t.tid] }) := by
  constructor
  · intro hx
    cases hb : led.blinkThread with
    | none => simp [LED.stopBlink, hb]
    | some t =>
        cases a with
        | false => simp [LED.stopBlink, hb, threadStop, threadJoin]
        | true => simp [LED.stopBlink, hb, threadStop, threadJoin] at hx
  · intro t hb
    simp [LED.stopBlink, hb, threadStop, threadJoin]

/-- Witness for C2 amended at a concrete device, both on the normal path
and on the zombie path. -/
theorem c2_stop_blink_reference_witness :
    (LED.stopBlink ⟨some (newThread 7), GPIO4, true, false⟩ {7} false).led.blinkThread
        = none
    ∧ LED.stopBlink ⟨some (newThread 7), GPIO4, true, false⟩ {7} true
        = { exc := some (zombieMessage 10),
            led := ⟨some ⟨7, true, false, false⟩, GPIO4, true, false⟩,
            reg := {7}, tr := [Ev.stopThread 7] } :=
  ⟨(c2_stop_blink_reference ⟨some (newThread 7), GPIO4, true, false⟩ {7} false).1
      (by decide),
   (c2_stop_blink_reference ⟨some (newThread 7), GPIO4, true, false⟩ {7} true).2
      (newThread 7) rfl⟩

/-- C6: `on`, `off`, `close` and `blink` all run `_stop_blink` first: each
trace is the stop trace (which contains no pin write) followed by the
operation's own action, issued only when the stop returned normally.
`_write` maps logical true to physical 1 and false to 0 on the device's
port (active-high). -/
theorem c6_stop_before_write (led : LED) (reg : Finset Nat) (a : Bool)
    (onT offT : Nat) (n : Option Nat) (bg : Bool) (tid : Nat) :
    ((led.stopBlink reg a).tr.all fun e => !e.isOutput) = true
    ∧ led.writeEv true = Ev.output led.port 1
    ∧ led.writeEv false = Ev.output led.port 0
    ∧ (led.on reg a).tr = (led.stopBlink reg a).tr ++
        (if (led.stopBlink reg a).exc = none then [Ev.output led.port 1] else [])
    ∧ (led.off reg a).tr = (led.stopBlink reg a).tr ++
        (if (led.stopBlink reg a).exc = none then [Ev.output led.port 0] else [])
    ∧ (led.close reg a).tr = (led.stopBlink reg a).tr ++
        (if (led.stopBlink reg a).exc = none then [Ev.init] else [])
    ∧ (led.blink reg onT offT n bg a tid).tr = (led.stopBlink reg a).tr ++
        (if (led.stopBlink reg a).exc = none then [Ev.startThread tid] else []) := by
  cases hb : led.blinkThread with
  | none =>
      cases bg <;>
        simp [LED.stopBlink, LED.on, LED.off, LED.close, LED.blink, LED.writeEv,
          threadStart, threadJoin, hb, Ev.isOutput]
  | some t =>
      cases a with
      | false =>
          cases bg <;>
            simp [LED.stopBlink, LED.on, LED.off, LED.close, LED.blink, LED.writeEv,
              threadStop, threadStart, threadJoin, hb, Ev.isOutput]
      | true =>
          cases bg <;>
            simp [LED.stopBlink, LED.on, LED.off, LED.close, LED.blink, LED.writeEv,
              threadStop, threadStart, threadJoin, hb, Ev.isOutput]

/-- C9: once a `close()` has returned normally (so no blink task remains),
a second `close()` raises nothing, performs no pin write, and emits only
the idempotent `gpio.init()` driver call, leaving device and registry
unchanged. -/
theorem c9_close_idempotent (led : LED) (reg : Finset Nat) (a a2 : Bool)
    (h : (led.close reg a).exc = none) :
    (led.close reg a).led.close (led.close reg a).reg a2
      = { exc := none, led := (led.close reg a).led, reg := (led.close reg a).reg,
          tr := [Ev.init] }
    ∧ ([Ev.init].all fun e => !e.isOutput) = true := by
  refine ⟨?_, rfl⟩
  have hbt : (led.close reg a).led.blinkThread = none := by
    cases hb : led.blinkThread with
    | none => simp [LED.close, LED.stopBlink, hb]
    | some t =>
        cases a with
        | false => simp [LED.close, LED.stopBlink, hb, threadStop, threadJoin]
        | true => simp [LED.close, LED.stopBlink, hb, threadStop, threadJoin] at h
  generalize (led.close reg a).led = l1 at hbt ⊢
  generalize (led.close reg a).reg = r1
  cases l1 with
  | mk bt p s1 s2 =>
      simp only [LED.mk.injEq] at hbt ⊢
      subst hbt
      simp [LED.close, LED.stopBlink]

/-- Witness for C9 at a freshly constructed device. -/
theorem c9_close_idempotent_witness :
    ((LED.construct none).1.close ∅ false).led.close
        ((LED.construct none).1.close ∅ false).reg false
      = { exc := none, led := ((LED.construct none).1.close ∅ false).led,
          reg := ((LED.construct none).1.close ∅ false).reg, tr := [Ev.init] } :=
  (c9_close_idempotent (LED.construct none).1 ∅ false false (by decide)).1

/-- C7: when the preceding `_stop_blink` succeeds, `blink` with
`background=True` returns without error with `_blink_thread` set to the
newly started task (registered in `_THREADS`); with `background=False`
and a finite count it joins with no timeout, returns without error, and
leaves `_blink_thread` cleared with the task deregistered. -/
theorem c7_blink_postcondition (led : LED) (reg : Finset Nat) (onT offT : Nat)
    (c : Nat) (n : Option Nat) (a : Bool) (tid : Nat)
    (h : (led.stopBlink reg a).exc = none) :
    (led.blink reg onT offT n true a tid).exc = none
    ∧ (led.blink reg onT offT n true a tid).led.blinkThread
        = some { tid := tid, stopping := false, started := true, confirmedDead := false }
    ∧ tid ∈ (led.blink reg onT offT n true a tid).reg
    ∧ (led.blink reg onT offT (some c) false a tid).exc = none
    ∧ (led.blink reg onT offT (some c) false a tid).led.blinkThread = none
    ∧ tid ∉ (led.blink reg onT offT (some c) false a tid).reg := by
  cases hb : led.blinkThread with
  | none =>
      simp [LED.blink, LED.stopBlink, hb, newThread, threadStart, threadJoin]
  | some t =>
      cases a with
      | false =>
          simp [LED.blink, LED.stopBlink, hb, newThread, threadStart, threadStop,
            threadJoin]
      | true => simp [LED.stopBlink, hb, threadStop, threadJoin] at h

/-- Witness for C7 at a concrete idle device. -/
theorem c7_blink_postcondition_witness :
    (LED.blink ⟨none, GPIO4, true, false⟩ ∅ 1 1 (some 3) true false 42).led.blinkThread
        = some { tid := 42, stopping := false, started := true, confirmedDead := false }
    ∧ (LED.blink ⟨none, GPIO4, true, false⟩ ∅ 1 1 (some 3) false false 42).led.blinkThread
        = none :=
  ⟨(c7_blink_postcondition ⟨none, GPIO4, true, false⟩ ∅ 1 1 3 (some 3) false 42
      (by decide)).2.1,
   (c7_blink_postcondition ⟨none, GPIO4, true, false⟩ ∅ 1 1 3 (some 3) false 42
      (by decide)).2.2.2.2.1⟩

/-- C4 counterexample: with `count = 0` the toggle loop performs no write
at all, so a device whose pin held the active level before the call does
not end in the inactive state — refuting the claim for every
`count ≥ 0`. -/
theorem c4_counterexample :
    (blinkRun noSig 0 (some 0) 1).1 = []
    ∧ finalState true (blinkRun noSig 0 (some 0) 1).1 = true := by
  constructor <;> rfl

/-- C4 amended: an uncancelled synchronous blink of `count` cycles
performs exactly `count` active and `count` inactive writes in strict
alternation starting with an active write and runs to completion; when
`count ≥ 1` the last write is the inactive level so the device ends
inactive, while `count = 0` performs no write and leaves the pin at its
prior level. -/
theorem c4_sync_blink_trace (c : Nat) (b : Bool) :
    blinkRun noSig 0 (some c) (c + 1) = (altTrace c, true)
    ∧ (altTrace c).count true = c
    ∧ (altTrace c).count false = c
    ∧ finalState b (altTrace c) = (if c = 0 then b else false) := by
  refine ⟨blinkRun_noSig_finite c 0 (c + 1) (by omega), (altTrace_count c).1,
    (altTrace_count c).2, ?_⟩
  cases c with
  | zero => rfl
  | succ c => simp [finalState, altTrace_getLast c]

/-- C5: behaviour of the toggle loop `_blink_device` — a finite count of
`c` runs exactly `c` iterations when never cancelled; an unspecified
count never exits on its own (any fuel bound is exhausted still looping);
and in each iteration the loop writes the active level, exits at once
with the pin left active if signalled during the on-wait, otherwise
writes the inactive level and exits at once with the pin left inactive if
signalled during the off-wait, else continues with the next iteration. -/
theorem c5_toggle_loop (sig : Nat → Bool) (k c fuel : Nat) (n : Option Nat)
    (b : Bool) :
    blinkRun noSig 0 (some c) (c + 1) = (altTrace c, true)
    ∧ (blinkRun noSig 0 none fuel).2 = false
    ∧ (n ≠ some 0 → sig (2 * k) = true → blinkRun sig k n (fuel + 1) = ([true], true))
    ∧ (n ≠ some 0 → sig (2 * k) = false → sig (2 * k + 1) = true →
        blinkRun sig k n (fuel + 1) = ([true, false], true))
    ∧ (n ≠ some 0 → sig (2 * k) = false → sig (2 * k + 1) = false →
        blinkRun sig k n (fuel + 1)
          = (true :: false :: (blinkRun sig (k + 1) (decr n) fuel).1,
             (blinkRun sig (k + 1) (decr n) fuel).2))
    ∧ finalState b [true] = true
    ∧ finalState b [true, false] = false := by
  refine ⟨blinkRun_noSig_finite c 0 (c + 1) (by omega),
    by rw [blinkRun_noSig_forever fuel 0], ?_, ?_, ?_, rfl, rfl⟩
  all_goals
    intro hn
    match n, hn with
    | none, _ => intros; simp_all [blinkRun]
    | some (m + 1), _ => intros; simp_all [blinkRun]

/-- Witness for C5 at concrete cancellation signals: one signalled during
the first on-wait (loop exits with the pin active), one during the first
off-wait (loop exits with the pin inactive). -/
theorem c5_toggle_loop_witness :
    blinkRun (fun i => i == 0) 0 none 1 = ([true], true)
    ∧ blinkRun (fun i => i == 1) 0 none 1 = ([true, false], true) :=
  ⟨(c5_toggle_loop (fun i => i == 0) 0 0 0 none false).2.2.1 (by decide) rfl,
   (c5_toggle_loop (fun i => i == 1) 0 0 0 none false).2.2.2.1 (by decide) rfl rfl⟩

/-- C8 counterexample: constructing with pin 5 configures the hard-coded
`GPIO4` port (not pin 5) and performs no pin write, so construction
neither configures the given pin nor writes an inactive baseline. -/
theorem c8_counterexample :
    (LED.construct (some 5)).2 = [Ev.init, Ev.setcfg GPIO4 1]
    ∧ GPIO4 ≠ 5
    ∧ (LED.construct (some 5)).2.contains (Ev.setcfg 5 1) = false
    ∧ ((LED.construct (some 5)).2.all fun e => !e.isOutput) = true := by
  refine ⟨rfl, by decide, by decide, rfl⟩

/-- C8 amended: for every pin argument, construction initializes the
driver and configures the hard-coded `GPIO4` port as an output, sets the
active-high level mapping and has no blink task; the pin argument is
ignored (the result does not depend on it) and no pin write is issued
during construction. -/
theorem c8_construct (pin : Option Nat) :
    LED.construct pin
      = ({ blinkThread := none, port := GPIO4, activeState := true,
           inactiveState := false },
         [Ev.init, Ev.setcfg GPIO4 1])
    ∧ ((LED.construct pin).2.all fun e => !e.isOutput) = true :=
  ⟨rfl, rfl⟩

end PyGPIO
